import Mathlib

/-!
Verification of the SmartWaste backend decision logic (src/backend/app.py).

The embedding models the pure decision functions of the backend:
calculate_priority, calculate_priority_score, check_alerts, the core of
predict_overflow, and optimize_route.  Python dict records are modelled as a
structure with Option-typed fields; dict.get with a default becomes
Option.getD.  Python float arithmetic is modelled over the rationals.
Timestamps are abstracted to the only observable the code extracts from them:
the integer number of days between datetime.now() and the parsed lastUpdate,
with a separate constructor for a present-but-unparsable string (the case
where datetime.fromisoformat raises).
-/

namespace SmartWaste

/-- The lastUpdate field of a bin record: absent, present but not parsable by
datetime.fromisoformat, or parsable with a given whole number of days between
now and the parsed time (the .days attribute of the timedelta; 0 when the
field is absent, since the code then substitutes the current time). -/
inductive LastUpdate where
  | missing : LastUpdate
  | unparsable : LastUpdate
  | daysAgo (d : ℤ) : LastUpdate
deriving DecidableEq, Repr

/-- A bin record as stored in bins_data.  Fields the code reads through
dict.get with a default are Option-typed; none models an absent key. -/
structure Bin where
  id : String
  type? : Option String := none
  fillLevel? : Option ℚ := none
  hazardScore? : Option ℚ := none
  lastUpdate : LastUpdate := .missing
  temperature? : Option ℚ := none
  priorityScore? : Option ℚ := none
  location? : Option String := none
deriving DecidableEq, Repr

/-- bin_data.get ("fillLevel", 0). -/
def binFillLevel (b : Bin) : ℚ := b.fillLevel?.getD 0

/-- bin_data.get ("type", "General Waste"). -/
def binType (b : Bin) : String := b.type?.getD "General Waste"

/-- bin_data.get ("hazardScore", 1): the default used by the two scoring
functions. -/
def hazardForScoring (b : Bin) : ℚ := b.hazardScore?.getD 1

/-- bin_data.get ("hazardScore", 0): the default used by check_alerts. -/
def hazardForAlerts (b : Bin) : ℚ := b.hazardScore?.getD 0

/-- bin_data.get ("temperature", 20). -/
def binTemperature (b : Bin) : ℚ := b.temperature?.getD 20

/-- bin.get ("priority_score", 0): the stored continuous score read by
optimize_route. -/
def binPriorityScore (b : Bin) : ℚ := b.priorityScore?.getD 0

/-- The type_multipliers table of calculate_priority (and the identical
type_factors table of calculate_priority_score); dict.get with default 0.4. -/
def typeMultiplier (t : String) : ℚ :=
  if t = "Hazardous" then 1
  else if t = "Organic Waste" then 0.8
  else if t = "Recycling" then 0.6
  else if t = "General Waste" then 0.4
  else 0.4

/-- The weighted sum computed inside calculate_priority:
fill_level * 0.3 + type_factor * 100 * 0.4 + hazard_score * 10 * 0.3. -/
def priorityWeightedSum (b : Bin) : ℚ :=
  binFillLevel b * 0.3 + typeMultiplier (binType b) * 100 * 0.4
    + hazardForScoring b * 10 * 0.3

/-- calculate_priority. -/
def calculate_priority (b : Bin) : String :=
  if priorityWeightedSum b ≥ 80 then "high"
  else if priorityWeightedSum b ≥ 50 then "medium"
  else "low"

/-- The time factor of calculate_priority_score.  A missing lastUpdate is
defaulted to datetime.now().isoformat(), which parses back to now, so
days_since = 0; a present but unparsable string is caught by the except
branch, giving 0.5; otherwise min(days_since / 7, 1.0). -/
def timeFactor (b : Bin) : ℚ :=
  match b.lastUpdate with
  | .missing => min ((0 : ℚ) / 7) 1
  | .unparsable => 0.5
  | .daysAgo d => min ((d : ℚ) / 7) 1

/-- calculate_priority_score.  The location factor is the constant 0.7; the
hazard_score the function also fetches (default 1) does not occur in the
returned sum. -/
def calculate_priority_score (b : Bin) : ℚ :=
  min (binFillLevel b / 100 * 0.3 + typeMultiplier (binType b) * 0.4
    + timeFactor b * 0.2 + 0.7 * 0.1) 1

/-- One alert record, restricted to the fields the spec constrains (the
message, timestamp and location fields carry no verified content). -/
structure Alert where
  id : String
  binId : String
  type : String
  severity : String
deriving DecidableEq, Repr

/-- check_alerts: an overflow alert when fillLevel >= 80, then a hazard alert
when hazardScore > 7, appended in that order. -/
def check_alerts (b : Bin) : List Alert :=
  (if binFillLevel b ≥ 80 then
    [{ id := "overflow_" ++ b.id, binId := b.id, type := "overflow",
       severity := "high" }]
  else []) ++
  (if hazardForAlerts b > 7 then
    [{ id := "hazard_" ++ b.id, binId := b.id, type := "hazard",
       severity := "critical" }]
  else [])

/-- The fill_rates table of predict_overflow; dict.get with default 8. -/
def fillRate (t : String) : ℚ :=
  if t = "General Waste" then 8
  else if t = "Recycling" then 5
  else if t = "Organic Waste" then 12
  else if t = "Hazardous" then 3
  else 8

/-- The waste_type_risk lookup of predict_overflow; dict.get with default
0.5. -/
def wasteTypeRisk (t : String) : ℚ :=
  if t = "Hazardous" then 0.9
  else if t = "Organic Waste" then 0.7
  else if t = "Recycling" then 0.4
  else if t = "General Waste" then 0.5
  else 0.5

/-- One hours-to-threshold prediction:
max(0, (threshold - current_fill) / daily_fill_rate * 24) if
current_fill < threshold else 0. -/
def hoursToThreshold (threshold fill rate : ℚ) : ℚ :=
  if fill < threshold then max 0 ((threshold - fill) / rate * 24) else 0

/-- The three hours-to-threshold values of predict_overflow, for thresholds
80, 90 and 100.  The random.uniform (-2, 3) perturbation of the daily fill
rate is passed in as the jitter argument. -/
def predictionHours (b : Bin) (jitter : ℚ) : ℚ × ℚ × ℚ :=
  let rate := fillRate (binType b) + jitter
  (hoursToThreshold 80 (binFillLevel b) rate,
   hoursToThreshold 90 (binFillLevel b) rate,
   hoursToThreshold 100 (binFillLevel b) rate)

/-- The datetime.fromisoformat call inside the risk_factors dict of
predict_overflow.  It is not guarded by a local try/except: an unparsable
lastUpdate string raises, so the result is an error; a missing lastUpdate is
defaulted to the current time (0 days ago). -/
def parseDaysSince (lu : LastUpdate) : Except Unit ℤ :=
  match lu with
  | .missing => .ok 0
  | .unparsable => .error ()
  | .daysAgo d => .ok d

/-- The risk_factors dict of predict_overflow. -/
structure RiskFactors where
  fill_level_risk : ℚ
  waste_type_risk : ℚ
  time_risk : ℚ
  sensor_anomaly_risk : ℚ
deriving DecidableEq, Repr

/-- The prediction payload of the /api/predict endpoint, restricted to the
numeric and categorical fields the spec constrains. -/
structure PredictionResult where
  hours_to_80 : ℚ
  hours_to_90 : ℚ
  hours_to_100 : ℚ
  daily_fill_rate : ℚ
  risk_factors : RiskFactors
  overall_risk : ℚ
  risk_level : String
  recommendations : List String
deriving DecidableEq, Repr

/-- The core of predict_overflow.  Everything after the bin lookup is inside
the endpoint's try/except, so the unparsable-timestamp exception raised while
building risk_factors aborts the whole computation: the endpoint answers with
an error response instead of a prediction. -/
def predict_overflow (b : Bin) (jitter : ℚ) : Except Unit PredictionResult :=
  let rate := fillRate (binType b) + jitter
  let hours := predictionHours b jitter
  match parseDaysSince b.lastUpdate with
  | .error e => .error e
  | .ok d =>
    let rf : RiskFactors :=
      { fill_level_risk := binFillLevel b / 100,
        waste_type_risk := wasteTypeRisk (binType b),
        time_risk := min 1 ((d : ℚ) / 7),
        sensor_anomaly_risk := if binTemperature b > 35 then 0.1 else 0 }
    let overall := (rf.fill_level_risk + rf.waste_type_risk + rf.time_risk
      + rf.sensor_anomaly_risk) / 4
    .ok
      { hours_to_80 := hours.1,
        hours_to_90 := hours.2.1,
        hours_to_100 := hours.2.2,
        daily_fill_rate := rate,
        risk_factors := rf,
        overall_risk := overall,
        risk_level :=
          if overall > 0.7 then "high"
          else if overall > 0.4 then "medium"
          else "low",
        recommendations :=
          (if overall > 0.8 then ["Immediate collection required"]
           else if overall > 0.6 then ["Schedule collection within 24 hours"]
           else if overall > 0.4 then ["Monitor closely, collection needed soon"]
           else ["Normal monitoring schedule"]) ++
          (if binType b = "Hazardous" then
            ["Special handling equipment required"]
           else if binType b = "Organic Waste" then
            ["Priority collection due to decomposition risk"]
           else []) }

/-- Python int() applied to a rational: truncation toward zero. -/
def pyTrunc (x : ℚ) : ℤ :=
  if 0 ≤ x then ⌊x⌋ else ⌈x⌉

/-- Python round-half-to-even to an integer (over the idealized rational
model of float arithmetic). -/
def roundHalfEven (x : ℚ) : ℤ :=
  let f := ⌊x⌋
  if x - f < 1 / 2 then f
  else if 1 / 2 < x - f then f + 1
  else if f % 2 = 0 then f else f + 1

/-- Python round(x, 2). -/
def pyRound2 (x : ℚ) : ℚ := (roundHalfEven (x * 100) : ℚ) / 100

/-- Python round(x, 1). -/
def pyRound1 (x : ℚ) : ℚ := (roundHalfEven (x * 10) : ℚ) / 10

/-- One stop of the optimized route, restricted to the fields the spec
constrains (location, waste_type and the clock-dependent estimated_arrival
are not modelled). -/
structure RouteStop where
  stop_number : ℕ
  bin_id : String
  fill_level : ℚ
  priority_score : ℚ
  distance_from_previous : ℚ
  travel_time_minutes : ℤ
  collection_time_minutes : ℕ
  predicted_fill_on_arrival : ℚ
deriving DecidableEq, Repr

/-- The route summary dict.  The empty-candidate early return of
optimize_route builds a summary without the high_priority_stops key, so that
field is Option-typed; none models the absent key. -/
structure RouteSummary where
  total_stops : ℕ
  total_distance_km : ℚ
  estimated_time_minutes : ℤ
  fuel_savings_percent : ℚ
  high_priority_stops : Option ℕ
deriving DecidableEq, Repr

/-- The route plan returned by /api/route/optimize. -/
structure RoutePlan where
  route : List RouteStop
  summary : RouteSummary
deriving DecidableEq, Repr

/-- The loop body of optimize_route at enumerate index i:
distance = 2.3 + i * 0.8, travel_time = max(5, int(distance * 3)),
collection_time = 15, predicted fill min(100, fillLevel +
(travel_time / 60) * 0.5). -/
def routeStopAt (i : ℕ) (b : Bin) : RouteStop :=
  let distance : ℚ := 2.3 + i * 0.8
  let travel_time : ℤ := max 5 (pyTrunc (distance * 3))
  { stop_number := i + 1,
    bin_id := b.id,
    fill_level := binFillLevel b,
    priority_score := binPriorityScore b,
    distance_from_previous := pyRound2 distance,
    travel_time_minutes := travel_time,
    collection_time_minutes := 15,
    predicted_fill_on_arrival :=
      min 100 (binFillLevel b + (travel_time : ℚ) / 60 * 0.5) }

/-- The candidate filter of optimize_route:
bin.get("priority_score", 0) > 0.5 or bin.get("fillLevel", 0) > 70. -/
def isCandidate (b : Bin) : Bool :=
  binPriorityScore b > 0.5 ∨ binFillLevel b > 70

/-- The comparison realising collection_bins.sort(key=priority_score,
reverse=True): a stable descending sort by stored priority score. -/
def byScoreDesc (a b : Bin) : Bool := binPriorityScore b ≤ binPriorityScore a

/-- The candidate list after the in-place sort (Python list.sort is stable;
with reverse=True ties keep their original relative order, which is exactly
stable mergeSort under byScoreDesc). -/
def sortedCandidates (bins : List Bin) : List Bin :=
  (bins.filter isCandidate).mergeSort byScoreDesc

/-- collection_bins[:6] after the sort: the bins the route visits, in
order. -/
def routeBins (bins : List Bin) : List Bin :=
  (sortedCandidates bins).take 6

/-- optimize_route over the current bin collection (bins_data.values() in
iteration order). -/
def optimize_route (bins : List Bin) : RoutePlan :=
  if (bins.filter isCandidate).isEmpty then
    { route := [],
      summary :=
        { total_stops := 0, total_distance_km := 0,
          estimated_time_minutes := 0, fuel_savings_percent := 0,
          high_priority_stops := none } }
  else
    let route := (routeBins bins).mapIdx routeStopAt
    { route := route,
      summary :=
        { total_stops := route.length,
          total_distance_km :=
            pyRound2 ((route.map (·.distance_from_previous)).sum),
          estimated_time_minutes :=
            (route.map (fun s => s.travel_time_minutes
              + (s.collection_time_minutes : ℤ))).sum,
          fuel_savings_percent :=
            pyRound1 (min 40 (25 + (route.length : ℚ) * 2)),
          high_priority_stops :=
            some ((route.filter (fun s => s.priority_score > 0.7)).length) } }

/-! ## Helper lemmas -/

lemma typeMultiplier_lb (t : String) : (0.4 : ℚ) ≤ typeMultiplier t := by
  unfold typeMultiplier
  split_ifs <;> norm_num

lemma typeMultiplier_ub (t : String) : typeMultiplier t ≤ 1 := by
  unfold typeMultiplier
  split_ifs <;> norm_num

lemma fillRate_lb (t : String) : (3 : ℚ) ≤ fillRate t := by
  unfold fillRate
  split_ifs <;> norm_num

/-- The rank of a priority category, for stating monotonicity:
low = 0 < medium = 1 < high = 2. -/
def priorityRank (p : String) : ℕ :=
  if p = "high" then 2 else if p = "medium" then 1 else 0

lemma priorityRank_high : priorityRank "high" = 2 := rfl

lemma priorityRank_medium : priorityRank "medium" = 1 := rfl

lemma priorityRank_low : priorityRank "low" = 0 := rfl

lemma calculate_priority_rank_mono {b b' : Bin}
    (h : priorityWeightedSum b ≤ priorityWeightedSum b') :
    priorityRank (calculate_priority b) ≤ priorityRank (calculate_priority b') := by
  unfold calculate_priority
  split_ifs with h1 h2 h3 h3 h4 <;>
    simp only [priorityRank_high, priorityRank_medium, priorityRank_low] <;>
    first
      | omega
      | (exfalso; revert h; simp only [ge_iff_le, not_le] at *; intro h; linarith)

/-! ## C1: calculate_priority matches the spec's weighted-sum classification -/

/-- Modelled from the spec (section 4.1): the type factor table of the
categorical priority, with 0.4 for any unknown type. -/
def specTypeFactor (t : String) : ℚ :=
  if t = "Hazardous" then 1.0
  else if t = "Organic Waste" then 0.8
  else if t = "Recycling" then 0.6
  else if t = "General Waste" then 0.4
  else 0.4

/-- Modelled from the spec (section 4.1): the category determined by the
weighted sum fillLevel*0.3 + typeFactor*100*0.4 + hazardScore*10*0.3, with
both thresholds inclusive toward the higher bucket. -/
def specPriorityCategory (fillLevel : ℚ) (t : String) (hazardScore : ℚ) : String :=
  let score := fillLevel * 0.3 + specTypeFactor t * 100 * 0.4 + hazardScore * 10 * 0.3
  if score ≥ 80 then "high" else if score ≥ 50 then "medium" else "low"

lemma specTypeFactor_eq_typeMultiplier : specTypeFactor = typeMultiplier := by
  funext t
  unfold specTypeFactor typeMultiplier
  split_ifs <;> norm_num

/-- C1: for every bin record, calculate_priority returns exactly the category
the spec's weighted sum and inclusive thresholds determine, applied to the
record's effective fill level, type and hazard score (after the documented
defaults fillLevel 0, type "General Waste", hazardScore 1). -/
theorem calculate_priority_matches_spec (b : Bin) :
    calculate_priority b
      = specPriorityCategory (binFillLevel b) (binType b) (hazardForScoring b) := by
  unfold calculate_priority specPriorityCategory priorityWeightedSum
  rw [specTypeFactor_eq_typeMultiplier]

/-! ## C9: monotonicity of calculate_priority -/

/-- C9: holding the waste type fixed, calculate_priority is monotone
non-decreasing in fillLevel (with the hazard score fixed) and in hazardScore
(with the fill level fixed), under the order low < medium < high. -/
theorem calculate_priority_monotone (b b' : Bin)
    (ht : binType b = binType b') :
    (hazardForScoring b = hazardForScoring b' →
      binFillLevel b ≤ binFillLevel b' →
      priorityRank (calculate_priority b) ≤ priorityRank (calculate_priority b'))
    ∧ (binFillLevel b = binFillLevel b' →
      hazardForScoring b ≤ hazardForScoring b' →
      priorityRank (calculate_priority b) ≤ priorityRank (calculate_priority b')) := by
  constructor
  · intro hh hf
    apply calculate_priority_rank_mono
    unfold priorityWeightedSum
    rw [ht, hh]
    have := typeMultiplier_lb (binType b')
    linarith
  · intro hf hh
    apply calculate_priority_rank_mono
    unfold priorityWeightedSum
    rw [ht, hf]
    linarith

/-- Concrete bins witnessing C9. -/
def monoBinLow : Bin :=
  { id := "W9", type? := some "Recycling", fillLevel? := some 40,
    hazardScore? := some 5 }

def monoBinHigh : Bin :=
  { id := "W9", type? := some "Recycling", fillLevel? := some 90,
    hazardScore? := some 5 }

theorem calculate_priority_monotone_witness :
    priorityRank (calculate_priority monoBinLow)
      ≤ priorityRank (calculate_priority monoBinHigh) :=
  (calculate_priority_monotone monoBinLow monoBinHigh rfl).1 rfl
    (by norm_num [binFillLevel, monoBinLow, monoBinHigh])

/-! ## C10: the two defaults for a missing hazardScore -/

/-- C10: a bin record with no hazardScore field gets hazard value 1 in the
scoring functions but 0 in the alert detector, so check_alerts emits no
hazard alert while the categorical weighted sum carries a hazard contribution
of 1 * 10 * 0.3 = 3 points. -/
theorem missing_hazard_defaults (b : Bin) (h : b.hazardScore? = none) :
    hazardForScoring b = 1
    ∧ hazardForAlerts b = 0
    ∧ (check_alerts b).countP (fun a => a.type == "hazard") = 0
    ∧ priorityWeightedSum b
        = binFillLevel b * 0.3 + typeMultiplier (binType b) * 40 + 3 := by
  have hs : hazardForScoring b = 1 := by simp [hazardForScoring, h]
  have ha : hazardForAlerts b = 0 := by simp [hazardForAlerts, h]
  refine ⟨hs, ha, ?_, ?_⟩
  · unfold check_alerts
    rw [ha, if_neg (by norm_num : ¬(0 : ℚ) > 7)]
    split_ifs with hf <;> simp +decide [List.countP_cons, List.countP_nil]
  · unfold priorityWeightedSum
    rw [hs]
    ring

/-- Concrete bin witnessing C10: no hazardScore key at all. -/
def noHazardBin : Bin :=
  { id := "W10", type? := some "General Waste", fillLevel? := some 50 }

theorem missing_hazard_defaults_witness :
    hazardForScoring noHazardBin = 1 ∧ hazardForAlerts noHazardBin = 0 :=
  ⟨(missing_hazard_defaults noHazardBin rfl).1,
   (missing_hazard_defaults noHazardBin rfl).2.1⟩

/-! ## C3: the alert rules -/

/-- C3: check_alerts emits exactly one overflow alert when fillLevel >= 80
and none otherwise, exactly one hazard alert when hazardScore > 7 and none
otherwise; the two rules are independent, so the list has
0, 1 or 2 entries and both entries are present exactly when both conditions
hold; the boundary cases fillLevel = 80 (one overflow alert) and
fillLevel = 79 (none) are instances of the first conjunct. -/
theorem check_alerts_rules (b : Bin) :
    (check_alerts b).countP (fun a => a.type == "overflow")
        = (if binFillLevel b ≥ 80 then 1 else 0)
    ∧ (check_alerts b).countP (fun a => a.type == "hazard")
        = (if hazardForAlerts b > 7 then 1 else 0)
    ∧ (check_alerts b).length
        = (if binFillLevel b ≥ 80 then 1 else 0)
          + (if hazardForAlerts b > 7 then 1 else 0)
    ∧ (∀ a ∈ check_alerts b, a.type = "overflow" →
        a.id = "overflow_" ++ b.id ∧ a.binId = b.id ∧ a.severity = "high")
    ∧ (∀ a ∈ check_alerts b, a.type = "hazard" →
        a.id = "hazard_" ++ b.id ∧ a.binId = b.id ∧ a.severity = "critical") := by
  unfold check_alerts
  split_ifs with hf hh <;>
    refine ⟨?_, ?_, ?_, ?_, ?_⟩ <;>
      simp +decide [List.countP_cons, List.countP_nil]

/-- Concrete bin witnessing C3: both alert conditions hold. -/
def alertBothBin : Bin :=
  { id := "W3", type? := some "Hazardous", fillLevel? := some 85,
    hazardScore? := some 9 }

theorem check_alerts_rules_witness : (check_alerts alertBothBin).length = 2 :=
  ((check_alerts_rules alertBothBin).2.2.1).trans
    (by norm_num [binFillLevel, hazardForAlerts, alertBothBin])

/-! ## C2: the continuous priority score -/

/-- Modelled from the claim C2 as stated: a time factor of 0.5 whenever
lastUpdate is missing or unparsable, min(days/7, 1) otherwise. -/
def claimTimeFactor (b : Bin) : ℚ :=
  match b.lastUpdate with
  | .daysAgo d => min ((d : ℚ) / 7) 1
  | _ => 0.5

/-- Modelled from the claim C2 as stated: the continuous priority score with
claimTimeFactor in the time slot. -/
def claimPriorityScore (b : Bin) : ℚ :=
  min (binFillLevel b / 100 * 0.3 + specTypeFactor (binType b) * 0.4
    + claimTimeFactor b * 0.2 + 0.7 * 0.1) 1

/-- A bin whose lastUpdate key is absent: the code defaults it to the current
time, so the computed time factor is 0, not the 0.5 the claim states. -/
def freshBin : Bin :=
  { id := "CX2", type? := some "General Waste", fillLevel? := some 0 }

/-- C2 counterexample: on a bin with no lastUpdate field the code returns
0.23 while the claimed formula (time factor 0.5 for a missing lastUpdate)
gives 0.33. -/
theorem calculate_priority_score_claim_counterexample :
    calculate_priority_score freshBin ≠ claimPriorityScore freshBin := by
  have h1 : calculate_priority_score freshBin = 0.23 := by
    norm_num +decide [calculate_priority_score, binFillLevel, binType,
      typeMultiplier, timeFactor, freshBin]
  have h2 : claimPriorityScore freshBin = 0.33 := by
    norm_num +decide [claimPriorityScore, binFillLevel, binType,
      specTypeFactor, claimTimeFactor, freshBin]
  rw [h1, h2]
  norm_num

lemma timeFactor_nonneg (b : Bin)
    (hd : ∀ d : ℤ, b.lastUpdate = .daysAgo d → 0 ≤ d) : 0 ≤ timeFactor b := by
  unfold timeFactor
  cases h : b.lastUpdate with
  | missing => norm_num
  | unparsable => norm_num
  | daysAgo d =>
      have hd0 : (0 : ℚ) ≤ (d : ℚ) := by exact_mod_cast hd d h
      exact le_min (by positivity) (by norm_num)

lemma timeFactor_le_one (b : Bin) : timeFactor b ≤ 1 := by
  unfold timeFactor
  cases b.lastUpdate with
  | missing => norm_num
  | unparsable => norm_num
  | daysAgo d => exact min_le_right _ _

/-- C2 amended: the time factor is min(days/7, 1) for a parsable lastUpdate,
0.5 only when lastUpdate is present but unparsable, and 0 when lastUpdate is
missing (the code substitutes the current time for a missing field); the
returned score is min(1, fill/100*0.3 + typeFactor*0.4 + timeFactor*0.2 +
0.7*0.1) and lies in [0, 1] for every bin whose fill level is nonnegative and
whose lastUpdate does not lie in the future. -/
theorem calculate_priority_score_amended (b : Bin)
    (hf : 0 ≤ binFillLevel b)
    (hd : ∀ d : ℤ, b.lastUpdate = .daysAgo d → 0 ≤ d) :
    (b.lastUpdate = .missing → timeFactor b = 0)
    ∧ (b.lastUpdate = .unparsable → timeFactor b = 0.5)
    ∧ (∀ d : ℤ, b.lastUpdate = .daysAgo d → timeFactor b = min ((d : ℚ) / 7) 1)
    ∧ calculate_priority_score b
        = min (binFillLevel b / 100 * 0.3 + specTypeFactor (binType b) * 0.4
            + timeFactor b * 0.2 + 0.7 * 0.1) 1
    ∧ 0 ≤ calculate_priority_score b
    ∧ calculate_priority_score b ≤ 1 := by
  refine ⟨fun h => by simp [timeFactor, h], fun h => by simp [timeFactor, h],
    fun d h => by simp [timeFactor, h], ?_, ?_, ?_⟩
  · unfold calculate_priority_score
    rw [specTypeFactor_eq_typeMultiplier]
  · unfold calculate_priority_score
    have htf := timeFactor_nonneg b hd
    have htm := typeMultiplier_lb (binType b)
    apply le_min _ (by norm_num)
    positivity
  · exact min_le_right _ _

/-- Concrete bin witnessing the amended C2. -/
def scoredBin : Bin :=
  { id := "W2", type? := some "Organic Waste", fillLevel? := some 60,
    hazardScore? := some 4, lastUpdate := .daysAgo 3 }

theorem calculate_priority_score_amended_witness :
    0 ≤ calculate_priority_score scoredBin
    ∧ calculate_priority_score scoredBin ≤ 1 :=
  ⟨(calculate_priority_score_amended scoredBin
      (by norm_num [binFillLevel, scoredBin])
      (fun d h => by simp [scoredBin] at h; omega)).2.2.2.2.1,
   (calculate_priority_score_amended scoredBin
      (by norm_num [binFillLevel, scoredBin])
      (fun d h => by simp [scoredBin] at h; omega)).2.2.2.2.2⟩

/-! ## C4: unparsable lastUpdate aborts the prediction -/

/-- A stored bin whose lastUpdate string datetime.fromisoformat cannot
parse. -/
def unparsableBin : Bin :=
  { id := "CX4", type? := some "General Waste", fillLevel? := some 50,
    lastUpdate := .unparsable }

/-- C4 fails on the code: the fromisoformat call inside risk_factors is not
guarded, so for a bin with an unparsable lastUpdate the prediction aborts
with an error (the endpoint answers HTTP 500) for every jitter value, instead
of substituting the "now" default the claim describes. -/
theorem predict_overflow_unparsable_aborts :
    ∀ j : ℚ, predict_overflow unparsableBin j = Except.error () :=
  fun _ => rfl

/-! ## C7: hours-to-threshold predictions -/

lemma hoursToThreshold_eq (T f rate : ℚ) (hr : 0 < rate) :
    hoursToThreshold T f rate = max 0 ((T - f) / rate * 24) := by
  unfold hoursToThreshold
  split_ifs with h
  · rfl
  · push_neg at h
    symm
    apply max_eq_left
    have h1 : (T - f) / rate * 24 = (T - f) * 24 / rate := by ring
    rw [h1]
    apply div_nonpos_iff.mpr
    exact Or.inr ⟨by linarith, hr.le⟩

/-- C7: with the per-type base rates (General Waste 8, Recycling 5, Organic
Waste 12, Hazardous 3, unknown 8) and any jitter in [-2, +3], the effective
daily rate is positive, each of the three hours-to-threshold predictions
equals max(0, (threshold - fillLevel) / rate * 24), is 0 whenever the fill
level is at or above the threshold, and is a nonnegative (finite, since the
model is exact rational arithmetic) number. -/
theorem prediction_hours_formula (b : Bin) (u : ℚ)
    (h1 : -2 ≤ u) (h2 : u ≤ 3) :
    0 < fillRate (binType b) + u
    ∧ (predictionHours b u).1
        = max 0 ((80 - binFillLevel b) / (fillRate (binType b) + u) * 24)
    ∧ (predictionHours b u).2.1
        = max 0 ((90 - binFillLevel b) / (fillRate (binType b) + u) * 24)
    ∧ (predictionHours b u).2.2
        = max 0 ((100 - binFillLevel b) / (fillRate (binType b) + u) * 24)
    ∧ (80 ≤ binFillLevel b → (predictionHours b u).1 = 0)
    ∧ (90 ≤ binFillLevel b → (predictionHours b u).2.1 = 0)
    ∧ (100 ≤ binFillLevel b → (predictionHours b u).2.2 = 0)
    ∧ 0 ≤ (predictionHours b u).1
    ∧ 0 ≤ (predictionHours b u).2.1
    ∧ 0 ≤ (predictionHours b u).2.2 := by
  have hfr := fillRate_lb (binType b)
  have hr : 0 < fillRate (binType b) + u := by linarith
  have hnn : ∀ T f : ℚ, 0 ≤ hoursToThreshold T f (fillRate (binType b) + u) := by
    intro T f
    unfold hoursToThreshold
    split_ifs
    · exact le_max_left _ _
    · exact le_refl 0
  have hzero : ∀ T f : ℚ, T ≤ f →
      hoursToThreshold T f (fillRate (binType b) + u) = 0 := by
    intro T f hTf
    unfold hoursToThreshold
    rw [if_neg (not_lt.mpr hTf)]
  simp only [predictionHours]
  exact ⟨hr, hoursToThreshold_eq _ _ _ hr, hoursToThreshold_eq _ _ _ hr,
    hoursToThreshold_eq _ _ _ hr, fun h => hzero _ _ h, fun h => hzero _ _ h,
    fun h => hzero _ _ h, hnn _ _, hnn _ _, hnn _ _⟩

/-- Concrete bin witnessing C7: an organic-waste bin already above the
90-percent threshold. -/
def predBin : Bin :=
  { id := "W7", type? := some "Organic Waste", fillLevel? := some 95 }

theorem prediction_hours_formula_witness :
    0 < fillRate (binType predBin) + 1 ∧ (predictionHours predBin 1).2.1 = 0 :=
  ⟨(prediction_hours_formula predBin 1 (by norm_num) (by norm_num)).1,
   (prediction_hours_formula predBin 1 (by norm_num) (by norm_num)).2.2.2.2.2.1
     (by norm_num [binFillLevel, predBin])⟩

/-! ## Route helpers -/

lemma byScoreDesc_trans (x y z : Bin) :
    byScoreDesc x y → byScoreDesc y z → byScoreDesc x z := by
  simp only [byScoreDesc, decide_eq_true_eq]
  exact fun h1 h2 => le_trans h2 h1

lemma byScoreDesc_total (x y : Bin) : byScoreDesc x y || byScoreDesc y x := by
  simp only [byScoreDesc, Bool.or_eq_true, decide_eq_true_eq]
  exact le_total _ _

lemma sortedCandidates_perm (bins : List Bin) :
    (sortedCandidates bins).Perm (bins.filter isCandidate) :=
  List.mergeSort_perm _ _

lemma sortedCandidates_pairwise (bins : List Bin) :
    (sortedCandidates bins).Pairwise
      (fun x y => binPriorityScore y ≤ binPriorityScore x) := by
  have h := List.sorted_mergeSort byScoreDesc_trans byScoreDesc_total
    (bins.filter isCandidate)
  exact h.imp (fun hxy => by
    simpa only [byScoreDesc, decide_eq_true_eq] using hxy)

/-- In both branches of optimize_route the stop list is the enumerate loop
over the first six sorted candidates (in the empty-candidate branch both
sides are empty). -/
lemma optimize_route_route (bins : List Bin) :
    (optimize_route bins).route = (routeBins bins).mapIdx routeStopAt := by
  unfold optimize_route
  split_ifs with h
  · rw [List.isEmpty_iff] at h
    simp [routeBins, sortedCandidates, h]
  · rfl

/-! ## C8: the empty-candidate route -/

/-- A bin qualifying under neither candidate rule. -/
def idleBin : Bin :=
  { id := "CX8", type? := some "General Waste", fillLevel? := some 30,
    priorityScore? := some 0.2 }

lemma idleBin_not_candidate : isCandidate idleBin = false := by
  norm_num [isCandidate, binPriorityScore, binFillLevel, idleBin]

lemma idleBin_filter : [idleBin].filter isCandidate = [] := by
  simp [List.filter, idleBin_not_candidate]

/-- C8 counterexample: with no candidate bins the returned summary has no
high_priority_stops entry at all, so that summary field is not zero as the
claim states — the key is simply absent from the early-return dict. -/
theorem route_empty_counterexample :
    [idleBin].filter isCandidate = []
    ∧ (optimize_route [idleBin]).summary.high_priority_stops ≠ some 0 := by
  refine ⟨idleBin_filter, ?_⟩
  unfold optimize_route
  rw [idleBin_filter]
  simp

/-- C8 amended: when no bin qualifies as a candidate, optimize_route returns
(without signalling an error) a plan with an empty stop list, total_stops 0,
total_distance_km 0, estimated_time_minutes 0 and fuel_savings_percent 0,
while the high_priority_stops summary field is omitted from the response
rather than set to zero. -/
theorem optimize_route_empty (bins : List Bin)
    (h : bins.filter isCandidate = []) :
    optimize_route bins =
      { route := [],
        summary :=
          { total_stops := 0, total_distance_km := 0,
            estimated_time_minutes := 0, fuel_savings_percent := 0,
            high_priority_stops := none } } := by
  unfold optimize_route
  rw [h]
  rfl

theorem optimize_route_empty_witness :
    optimize_route [idleBin] =
      { route := [],
        summary :=
          { total_stops := 0, total_distance_km := 0,
            estimated_time_minutes := 0, fuel_savings_percent := 0,
            high_priority_stops := none } } :=
  optimize_route_empty [idleBin] idleBin_filter

/-! ## C5: per-stop distance and time formulas -/

/-- Modelled from the claim C5 as stated: travel time
max(5, round(distance * 3)) with Python rounding. -/
def claimTravelTime (i : ℕ) : ℤ :=
  max 5 (roundHalfEven ((2.3 + 0.8 * i) * 3))

/-- A single candidate bin, giving a one-stop route. -/
def soloBin : Bin :=
  { id := "CX5", fillLevel? := some 50, priorityScore? := some 1 }

lemma soloBin_candidate : isCandidate soloBin = true := by
  norm_num [isCandidate, binPriorityScore, binFillLevel, soloBin]

lemma soloBin_route :
    (optimize_route [soloBin]).route = [routeStopAt 0 soloBin] := by
  rw [optimize_route_route]
  simp [routeBins, sortedCandidates, List.filter, soloBin_candidate]

/-- C5 counterexample: at stop index 0 the distance is 2.3 km, so
distance * 3 = 6.9; the code computes int(6.9) = 6 minutes of travel while
the claimed max(5, round(6.9)) gives 7. -/
theorem route_stop_time_counterexample :
    (optimize_route [soloBin]).route.map (fun s => s.travel_time_minutes)
      ≠ [claimTravelTime 0] := by
  rw [soloBin_route]
  have h6 : (routeStopAt 0 soloBin).travel_time_minutes = 6 := by
    norm_num [routeStopAt, pyTrunc]
  have h7 : claimTravelTime 0 = 7 := by
    norm_num [claimTravelTime, roundHalfEven, Int.floor_eq_iff]
  simp [h6, h7]

lemma roundHalfEven_intCast (n : ℤ) : roundHalfEven (n : ℚ) = n := by
  simp only [roundHalfEven, Int.floor_intCast, sub_self]
  norm_num

lemma pyRound2_route_distance (i : ℕ) :
    pyRound2 (2.3 + (i : ℚ) * 0.8) = 2.3 + (i : ℚ) * 0.8 := by
  unfold pyRound2
  have h : (2.3 + (i : ℚ) * 0.8) * 100 = ((230 + 80 * i : ℤ) : ℚ) := by
    push_cast
    ring
  rw [h, roundHalfEven_intCast]
  push_cast
  ring

/-- C5 amended: the stop at 0-based index i has
distance_from_previous = 2.3 + 0.8*i kilometers,
travel_time_minutes = max(5, int(distance * 3)) minutes — Python int(), i.e.
truncation, not round() as the claim states — and collection_time_minutes
fixed at 15, with stop_number = i + 1. -/
theorem route_stop_formulas (bins : List Bin) (i : ℕ) (s : RouteStop)
    (hs : (optimize_route bins).route[i]? = some s) :
    s.stop_number = i + 1
    ∧ s.distance_from_previous = 2.3 + 0.8 * i
    ∧ s.travel_time_minutes = max 5 (pyTrunc ((2.3 + 0.8 * i) * 3))
    ∧ s.collection_time_minutes = 15 := by
  rw [optimize_route_route, List.getElem?_mapIdx] at hs
  cases hb : (routeBins bins)[i]? with
  | none => rw [hb] at hs; simp at hs
  | some b =>
      rw [hb] at hs
      simp only [Option.map_some'] at hs
      cases hs
      refine ⟨rfl, ?_, ?_, rfl⟩
      · show pyRound2 (2.3 + (i : ℚ) * 0.8) = 2.3 + 0.8 * (i : ℚ)
        rw [pyRound2_route_distance]
        ring
      · show max 5 (pyTrunc ((2.3 + (i : ℚ) * 0.8) * 3))
            = max 5 (pyTrunc ((2.3 + 0.8 * (i : ℚ)) * 3))
        exact congrArg (fun x => max 5 (pyTrunc x)) (by ring)

theorem route_stop_formulas_witness :
    (routeStopAt 0 soloBin).stop_number = 0 + 1
    ∧ (routeStopAt 0 soloBin).distance_from_previous = 2.3 + 0.8 * (0 : ℕ)
    ∧ (routeStopAt 0 soloBin).collection_time_minutes = 15 :=
  have h := route_stop_formulas [soloBin] 0 (routeStopAt 0 soloBin)
    (by rw [soloBin_route]; rfl)
  ⟨h.1, h.2.1, h.2.2.2⟩

/-! ## C6: candidate selection, ordering, stability and the six-stop cap -/

/-- Two candidate bins with equal stored priority scores, witnessing
stability. -/
def twinA : Bin := { id := "WA", priorityScore? := some 1 }

def twinB : Bin := { id := "WB", priorityScore? := some 1 }

lemma twin_filter : [twinA, twinB].filter isCandidate = [twinA, twinB] := by
  have ha : isCandidate twinA = true := by
    norm_num [isCandidate, binPriorityScore, binFillLevel, twinA]
  have hb : isCandidate twinB = true := by
    norm_num [isCandidate, binPriorityScore, binFillLevel, twinB]
  simp [List.filter, ha, hb]

/-- C6: for every bin collection, the route visits (in enumerate order)
exactly the first six entries of the stably sorted candidate list: its length
is min(candidates, 6); its bins are a sub-permutation of the candidate set
(the full set when at most six bins qualify); scores along the route are
non-increasing; every candidate dropped beyond the cap scores no higher than
any kept stop; and any two equal-score candidates keep their original
relative order in the sorted list the route is cut from. -/
theorem route_selection (bins : List Bin) :
    (optimize_route bins).route = (routeBins bins).mapIdx routeStopAt
    ∧ (routeBins bins).length = min (bins.filter isCandidate).length 6
    ∧ (routeBins bins).Subperm (bins.filter isCandidate)
    ∧ (routeBins bins).Pairwise
        (fun x y => binPriorityScore y ≤ binPriorityScore x)
    ∧ (∀ c ∈ (sortedCandidates bins).drop 6, ∀ d ∈ routeBins bins,
        binPriorityScore c ≤ binPriorityScore d)
    ∧ ((bins.filter isCandidate).length ≤ 6 →
        (routeBins bins).Perm (bins.filter isCandidate))
    ∧ (∀ a b : Bin, List.Sublist [a, b] (bins.filter isCandidate) →
        binPriorityScore a = binPriorityScore b →
        List.Sublist [a, b] (sortedCandidates bins)) := by
  have hlen : (sortedCandidates bins).length = (bins.filter isCandidate).length :=
    (sortedCandidates_perm bins).length_eq
  refine ⟨optimize_route_route bins, ?_, ?_, ?_, ?_, ?_, ?_⟩
  · unfold routeBins
    rw [List.length_take, hlen, Nat.min_comm]
  · exact ((List.take_sublist 6 _).subperm).trans
      (sortedCandidates_perm bins).subperm
  · exact (sortedCandidates_pairwise bins).sublist (List.take_sublist 6 _)
  · intro c hc d hd
    have hp := sortedCandidates_pairwise bins
    rw [← List.take_append_drop 6 (sortedCandidates bins),
      List.pairwise_append] at hp
    exact hp.2.2 d hd c hc
  · intro hle
    unfold routeBins
    rw [List.take_of_length_le (by omega)]
    exact sortedCandidates_perm bins
  · intro a b hab heq
    apply List.pair_sublist_mergeSort byScoreDesc_trans byScoreDesc_total
    · simp only [byScoreDesc, decide_eq_true_eq]
      exact le_of_eq heq.symm
    · exact hab

theorem route_selection_witness :
    List.Sublist [twinA, twinB] (sortedCandidates [twinA, twinB]) :=
  (route_selection [twinA, twinB]).2.2.2.2.2.2 twinA twinB
    (by rw [twin_filter]) rfl

end SmartWaste
